import Mathlib

/-!
Verification of the kitmap keyboard-heatmap core: the key-identity resolver
(getKeyCount), the intensity normalizer (getIntensity), the sixteen-bucket
intensity classifier (getHeatColor) and the layout/label metadata tables,
shallowly embedded from the dashboard component source.

Frequency mappings are association lists from key-name strings to
non-negative integer press counts (the data model of the snapshot).
Intensities are rationals, an exact model of the arithmetic the code
performs on the [0, 1] scale.
-/

namespace Kitmap

/-- JavaScript toUpperCase, restricted to the ASCII range (character-wise
uppercase mapping). -/
def jsToUpper (s : String) : String := String.mk (s.data.map Char.toUpper)

/-- JavaScript toLowerCase, restricted to the ASCII range (character-wise
lowercase mapping). -/
def jsToLower (s : String) : String := String.mk (s.data.map Char.toLower)

/-- The expression charAt(0).toUpperCase() + slice(1).toLowerCase(): first
character upper-cased, remainder lower-cased; the empty string maps to
itself. -/
def jsCapitalize (s : String) : String :=
  match s.data with
  | [] => ""
  | c :: rest => String.mk (c.toUpper :: rest.map Char.toLower)

/-- A frequency mapping: Record from key-name string to non-negative integer
press count, embedded as an association list. -/
abbrev FreqMap : Type := List (String × Nat)

/-- Property-style lookup on a record: the value at the first matching key,
or none when the record has no entry for the key, which is how the code
tests a property against undefined. -/
def lookup {α : Type} : List (String × α) → String → Option α
  | [], _ => none
  | (k, v) :: rest, key => if k = key then some v else lookup rest key

/-- The key-identity resolver getKeyCount: exact match, then upper-cased,
lower-cased, capitalized forms, then for one-character labels the form
Key followed by the upper-cased character; 0 when nothing matches. -/
def getKeyCount (freq : FreqMap) (keyName : String) : Nat :=
  match lookup freq keyName with
  | some v => v
  | none =>
    match lookup freq (jsToUpper keyName) with
    | some v => v
    | none =>
      match lookup freq (jsToLower keyName) with
      | some v => v
      | none =>
        match lookup freq (jsCapitalize keyName) with
        | some v => v
        | none =>
          if keyName.length = 1 then
            match lookup freq ("Key" ++ jsToUpper keyName) with
            | some v => v
            | none => 0
          else 0

/-- Math.max(...Object.values(freq), 1): the maximum value of the frequency
mapping floored at 1. -/
def maxCount (freq : FreqMap) : Nat := (freq.map Prod.snd).foldr max 1

/-- The maximum value present anywhere in the frequency mapping (0 when the
mapping is empty). -/
def maxVal (freq : FreqMap) : Nat := (freq.map Prod.snd).foldr max 0

/-- getIntensity: resolved count divided by the floored maximum, as an exact
rational. -/
def getIntensity (freq : FreqMap) (keyName : String) : ℚ :=
  (getKeyCount freq keyName : ℚ) / (maxCount freq : ℚ)

/-- getHeatColor: the sixteen-way classification of an intensity into a color
class, verbatim from the source if-chain. -/
def getHeatColor (intensity : ℚ) : String :=
  if intensity = 0 then "bg-secondary/50"
  else if intensity < 0.04 then "bg-blue-950/80"
  else if intensity < 0.08 then "bg-blue-900/80"
  else if intensity < 0.13 then "bg-blue-800/80"
  else if intensity < 0.19 then "bg-blue-700/80"
  else if intensity < 0.26 then "bg-blue-600/80"
  else if intensity < 0.34 then "bg-cyan-700/80"
  else if intensity < 0.42 then "bg-cyan-500/80"
  else if intensity < 0.52 then "bg-green-400/80"
  else if intensity < 0.62 then "bg-yellow-400/80"
  else if intensity < 0.7 then "bg-yellow-500/90"
  else if intensity < 0.77 then "bg-orange-400/90"
  else if intensity < 0.84 then "bg-orange-500/90"
  else if intensity < 0.9 then "bg-red-400/90"
  else if intensity < 0.96 then "bg-red-500/90"
  else "bg-red-700/95"

/-- The severity-bucket index 0 to 15 of an intensity: the branch of the
getHeatColor if-chain that fires. -/
def bucket (intensity : ℚ) : Nat :=
  if intensity = 0 then 0
  else if intensity < 0.04 then 1
  else if intensity < 0.08 then 2
  else if intensity < 0.13 then 3
  else if intensity < 0.19 then 4
  else if intensity < 0.26 then 5
  else if intensity < 0.34 then 6
  else if intensity < 0.42 then 7
  else if intensity < 0.52 then 8
  else if intensity < 0.62 then 9
  else if intensity < 0.7 then 10
  else if intensity < 0.77 then 11
  else if intensity < 0.84 then 12
  else if intensity < 0.9 then 13
  else if intensity < 0.96 then 14
  else 15

/-- The ordered color ramp, bucket index 0 to 15. -/
def heatColors : List String :=
  ["bg-secondary/50", "bg-blue-950/80", "bg-blue-900/80", "bg-blue-800/80",
   "bg-blue-700/80", "bg-blue-600/80", "bg-cyan-700/80", "bg-cyan-500/80",
   "bg-green-400/80", "bg-yellow-400/80", "bg-yellow-500/90",
   "bg-orange-400/90", "bg-orange-500/90", "bg-red-400/90", "bg-red-500/90",
   "bg-red-700/95"]

/-- The fourteen interior threshold constants of the bucket ladder, in
source order. -/
def thresholds : List ℚ :=
  [0.04, 0.08, 0.13, 0.19, 0.26, 0.34, 0.42, 0.52, 0.62, 0.7, 0.77, 0.84,
   0.9, 0.96]

/-- The intensity band of severity bucket i, as the spec describes the
partition of [0, 1]: bucket 0 is the single point 0, bucket 1 the open band
up to the first threshold, buckets 2 to 14 half-open bands between
consecutive thresholds, bucket 15 the closed band from the last threshold
to 1. -/
def inBand (i : Nat) (x : ℚ) : Prop :=
  if i = 0 then x = 0
  else if i = 1 then 0 < x ∧ x < 0.04
  else if i = 2 then 0.04 ≤ x ∧ x < 0.08
  else if i = 3 then 0.08 ≤ x ∧ x < 0.13
  else if i = 4 then 0.13 ≤ x ∧ x < 0.19
  else if i = 5 then 0.19 ≤ x ∧ x < 0.26
  else if i = 6 then 0.26 ≤ x ∧ x < 0.34
  else if i = 7 then 0.34 ≤ x ∧ x < 0.42
  else if i = 8 then 0.42 ≤ x ∧ x < 0.52
  else if i = 9 then 0.52 ≤ x ∧ x < 0.62
  else if i = 10 then 0.62 ≤ x ∧ x < 0.7
  else if i = 11 then 0.7 ≤ x ∧ x < 0.77
  else if i = 12 then 0.77 ≤ x ∧ x < 0.84
  else if i = 13 then 0.84 ≤ x ∧ x < 0.9
  else if i = 14 then 0.9 ≤ x ∧ x < 0.96
  else if i = 15 then 0.96 ≤ x ∧ x ≤ 1
  else False

/-- The widths of the fifteen non-zero intensity bands, buckets 1 to 15:
differences of consecutive ladder points 0, thresholds, 1. -/
def bandWidths : List ℚ :=
  (List.zip ((0 : ℚ) :: thresholds) (thresholds ++ [1])).map
    (fun p => p.2 - p.1)

/-- The ordered candidate keys of the resolver, as the spec lists them:
exact label, upper-cased, lower-cased, title-cased, and for one-character
labels the string Key followed by the upper-cased character. -/
def specCandidates (label : String) : List String :=
  [label, jsToUpper label, jsToLower label, jsCapitalize label] ++
    (if label.length = 1 then ["Key" ++ jsToUpper label] else [])

/-- The resolver as the spec words it: the first candidate present in the
mapping wins; 0 when none is present. -/
def specResolve (freq : FreqMap) (label : String) : Nat :=
  match (specCandidates label).findSome? (lookup freq) with
  | some v => v
  | none => 0

/-- KEYBOARD_LAYOUT: the ordered rows of physical key labels, verbatim from
the component source. -/
def KEYBOARD_LAYOUT : List (List String) :=
  [["\x60", "1", "2", "3", "4", "5", "6", "7", "8", "9", "0", "-", "=",
    "Backspace"],
   ["Tab", "q", "w", "e", "r", "t", "y", "u", "i", "o", "p", "[", "]",
    "\\"],
   ["CapsLock", "a", "s", "d", "f", "g", "h", "j", "k", "l", ";", "\x27",
    "Return"],
   ["ShiftLeft", "z", "x", "c", "v", "b", "n", "m", ",", ".", "/",
    "ShiftRight"],
   ["ControlLeft", "MetaLeft", "Alt", "Space", "AltGr", "MetaRight",
    "ControlRight"]]

/-- KEY_DISPLAY_NAMES: the display-glyph table, verbatim from the component
source. -/
def KEY_DISPLAY_NAMES : List (String × String) :=
  [("Backspace", "⌫"), ("Tab", "Tab"), ("CapsLock", "Caps"),
   ("Return", "⏎"), ("Enter", "⏎"), ("ShiftLeft", "⇧"),
   ("ShiftRight", "⇧"), ("ControlLeft", "Ctrl"), ("ControlRight", "Ctrl"),
   ("MetaLeft", "⌘"), ("MetaRight", "⌘"), ("Alt", "Alt"),
   ("AltGr", "Alt"), ("Space", "Space")]

/-- The rendered display label: KEY_DISPLAY_NAMES at the key, with the
logical-or fallback to the upper-cased label; the or-fallback also fires on
an empty-string glyph because the operator tests truthiness. -/
def displayName (key : String) : String :=
  match lookup KEY_DISPLAY_NAMES key with
  | some d => if d = "" then jsToUpper key else d
  | none => jsToUpper key

/-- The display label as the spec words it: the glyph recorded in the table
when one is present, the upper-cased label otherwise. -/
def specDisplayName (key : String) : String :=
  match lookup KEY_DISPLAY_NAMES key with
  | some d => d
  | none => jsToUpper key

theorem lookup_mem {α : Type} {k : String} {v : α} :
    ∀ {l : List (String × α)}, lookup l k = some v → v ∈ l.map Prod.snd := by
  intro l
  induction l with
  | nil => intro h; simp [lookup] at h
  | cons p rest ih =>
    intro h
    obtain ⟨k0, v0⟩ := p
    simp only [lookup] at h
    split at h
    · cases h; simp
    · simpa using Or.inr (ih h)

theorem le_foldr_max {v : Nat} (b : Nat) :
    ∀ {l : List Nat}, v ∈ l → v ≤ l.foldr max b := by
  intro l
  induction l with
  | nil => intro h; simp at h
  | cons a t ih =>
    intro h
    rcases List.mem_cons.mp h with rfl | h2
    · exact le_max_left _ _
    · exact le_trans (ih h2) (le_max_right _ _)

theorem foldr_max_one (l : List Nat) : l.foldr max 1 = max 1 (l.foldr max 0) := by
  induction l with
  | nil => rfl
  | cons a t ih => simp only [List.foldr_cons, ih]; omega

theorem maxCount_eq_max (freq : FreqMap) : maxCount freq = max 1 (maxVal freq) :=
  foldr_max_one _

theorem getKeyCount_le_maxVal (freq : FreqMap) (k : String) :
    getKeyCount freq k ≤ maxVal freq := by
  unfold getKeyCount
  repeat' split
  any_goals exact Nat.zero_le _
  all_goals rename_i v h; exact le_foldr_max 0 (lookup_mem h)

theorem maxVal_eq_zero : ∀ {freq : FreqMap}, (∀ p ∈ freq, p.2 = 0) →
    maxVal freq = 0 := by
  intro freq
  induction freq with
  | nil => intro _; rfl
  | cons p t ih =>
    intro h
    have hp := h p (List.mem_cons_self p t)
    have ht : ∀ q ∈ t, q.2 = 0 := fun q hq => h q (List.mem_cons_of_mem p hq)
    simp only [maxVal, List.map_cons, List.foldr_cons] at *
    rw [hp, ih ht]
    simp

theorem getKeyCount_exact {freq : FreqMap} {label : String} {v : Nat}
    (h : lookup freq label = some v) : getKeyCount freq label = v := by
  unfold getKeyCount
  rw [h]


theorem bucket_at_0 {x : ℚ} (h0 : x = 0) : bucket x = 0 := by
  unfold bucket
  rw [if_pos h0]

theorem bucket_at_1 {x : ℚ} (h0 : ¬x = 0) (h1 : x < 0.04) : bucket x = 1 := by
  unfold bucket
  rw [if_neg h0, if_pos h1]

theorem bucket_at_2 {x : ℚ} (h0 : ¬x = 0) (h1 : ¬x < 0.04) (h2 : x < 0.08) : bucket x = 2 := by
  unfold bucket
  rw [if_neg h0, if_neg h1, if_pos h2]

theorem bucket_at_3 {x : ℚ} (h0 : ¬x = 0) (h1 : ¬x < 0.04) (h2 : ¬x < 0.08) (h3 : x < 0.13) : bucket x = 3 := by
  unfold bucket
  rw [if_neg h0, if_neg h1, if_neg h2, if_pos h3]

theorem bucket_at_4 {x : ℚ} (h0 : ¬x = 0) (h1 : ¬x < 0.04) (h2 : ¬x < 0.08) (h3 : ¬x < 0.13) (h4 : x < 0.19) : bucket x = 4 := by
  unfold bucket
  rw [if_neg h0, if_neg h1, if_neg h2, if_neg h3, if_pos h4]

theorem bucket_at_5 {x : ℚ} (h0 : ¬x = 0) (h1 : ¬x < 0.04) (h2 : ¬x < 0.08) (h3 : ¬x < 0.13) (h4 : ¬x < 0.19) (h5 : x < 0.26) : bucket x = 5 := by
  unfold bucket
  rw [if_neg h0, if_neg h1, if_neg h2, if_neg h3, if_neg h4, if_pos h5]

theorem bucket_at_6 {x : ℚ} (h0 : ¬x = 0) (h1 : ¬x < 0.04) (h2 : ¬x < 0.08) (h3 : ¬x < 0.13) (h4 : ¬x < 0.19) (h5 : ¬x < 0.26) (h6 : x < 0.34) : bucket x = 6 := by
  unfold bucket
  rw [if_neg h0, if_neg h1, if_neg h2, if_neg h3, if_neg h4, if_neg h5, if_pos h6]

theorem bucket_at_7 {x : ℚ} (h0 : ¬x = 0) (h1 : ¬x < 0.04) (h2 : ¬x < 0.08) (h3 : ¬x < 0.13) (h4 : ¬x < 0.19) (h5 : ¬x < 0.26) (h6 : ¬x < 0.34) (h7 : x < 0.42) : bucket x = 7 := by
  unfold bucket
  rw [if_neg h0, if_neg h1, if_neg h2, if_neg h3, if_neg h4, if_neg h5, if_neg h6, if_pos h7]

theorem bucket_at_8 {x : ℚ} (h0 : ¬x = 0) (h1 : ¬x < 0.04) (h2 : ¬x < 0.08) (h3 : ¬x < 0.13) (h4 : ¬x < 0.19) (h5 : ¬x < 0.26) (h6 : ¬x < 0.34) (h7 : ¬x < 0.42) (h8 : x < 0.52) : bucket x = 8 := by
  unfold bucket
  rw [if_neg h0, if_neg h1, if_neg h2, if_neg h3, if_neg h4, if_neg h5, if_neg h6, if_neg h7, if_pos h8]

theorem bucket_at_9 {x : ℚ} (h0 : ¬x = 0) (h1 : ¬x < 0.04) (h2 : ¬x < 0.08) (h3 : ¬x < 0.13) (h4 : ¬x < 0.19) (h5 : ¬x < 0.26) (h6 : ¬x < 0.34) (h7 : ¬x < 0.42) (h8 : ¬x < 0.52) (h9 : x < 0.62) : bucket x = 9 := by
  unfold bucket
  rw [if_neg h0, if_neg h1, if_neg h2, if_neg h3, if_neg h4, if_neg h5, if_neg h6, if_neg h7, if_neg h8, if_pos h9]

theorem bucket_at_10 {x : ℚ} (h0 : ¬x = 0) (h1 : ¬x < 0.04) (h2 : ¬x < 0.08) (h3 : ¬x < 0.13) (h4 : ¬x < 0.19) (h5 : ¬x < 0.26) (h6 : ¬x < 0.34) (h7 : ¬x < 0.42) (h8 : ¬x < 0.52) (h9 : ¬x < 0.62) (h10 : x < 0.7) : bucket x = 10 := by
  unfold bucket
  rw [if_neg h0, if_neg h1, if_neg h2, if_neg h3, if_neg h4, if_neg h5, if_neg h6, if_neg h7, if_neg h8, if_neg h9, if_pos h10]

theorem bucket_at_11 {x : ℚ} (h0 : ¬x = 0) (h1 : ¬x < 0.04) (h2 : ¬x < 0.08) (h3 : ¬x < 0.13) (h4 : ¬x < 0.19) (h5 : ¬x < 0.26) (h6 : ¬x < 0.34) (h7 : ¬x < 0.42) (h8 : ¬x < 0.52) (h9 : ¬x < 0.62) (h10 : ¬x < 0.7) (h11 : x < 0.77) : bucket x = 11 := by
  unfold bucket
  rw [if_neg h0, if_neg h1, if_neg h2, if_neg h3, if_neg h4, if_neg h5, if_neg h6, if_neg h7, if_neg h8, if_neg h9, if_neg h10, if_pos h11]

theorem bucket_at_12 {x : ℚ} (h0 : ¬x = 0) (h1 : ¬x < 0.04) (h2 : ¬x < 0.08) (h3 : ¬x < 0.13) (h4 : ¬x < 0.19) (h5 : ¬x < 0.26) (h6 : ¬x < 0.34) (h7 : ¬x < 0.42) (h8 : ¬x < 0.52) (h9 : ¬x < 0.62) (h10 : ¬x < 0.7) (h11 : ¬x < 0.77) (h12 : x < 0.84) : bucket x = 12 := by
  unfold bucket
  rw [if_neg h0, if_neg h1, if_neg h2, if_neg h3, if_neg h4, if_neg h5, if_neg h6, if_neg h7, if_neg h8, if_neg h9, if_neg h10, if_neg h11, if_pos h12]

theorem bucket_at_13 {x : ℚ} (h0 : ¬x = 0) (h1 : ¬x < 0.04) (h2 : ¬x < 0.08) (h3 : ¬x < 0.13) (h4 : ¬x < 0.19) (h5 : ¬x < 0.26) (h6 : ¬x < 0.34) (h7 : ¬x < 0.42) (h8 : ¬x < 0.52) (h9 : ¬x < 0.62) (h10 : ¬x < 0.7) (h11 : ¬x < 0.77) (h12 : ¬x < 0.84) (h13 : x < 0.9) : bucket x = 13 := by
  unfold bucket
  rw [if_neg h0, if_neg h1, if_neg h2, if_neg h3, if_neg h4, if_neg h5, if_neg h6, if_neg h7, if_neg h8, if_neg h9, if_neg h10, if_neg h11, if_neg h12, if_pos h13]

theorem bucket_at_14 {x : ℚ} (h0 : ¬x = 0) (h1 : ¬x < 0.04) (h2 : ¬x < 0.08) (h3 : ¬x < 0.13) (h4 : ¬x < 0.19) (h5 : ¬x < 0.26) (h6 : ¬x < 0.34) (h7 : ¬x < 0.42) (h8 : ¬x < 0.52) (h9 : ¬x < 0.62) (h10 : ¬x < 0.7) (h11 : ¬x < 0.77) (h12 : ¬x < 0.84) (h13 : ¬x < 0.9) (h14 : x < 0.96) : bucket x = 14 := by
  unfold bucket
  rw [if_neg h0, if_neg h1, if_neg h2, if_neg h3, if_neg h4, if_neg h5, if_neg h6, if_neg h7, if_neg h8, if_neg h9, if_neg h10, if_neg h11, if_neg h12, if_neg h13, if_pos h14]

theorem bucket_at_15 {x : ℚ} (h0 : ¬x = 0) (h1 : ¬x < 0.04) (h2 : ¬x < 0.08) (h3 : ¬x < 0.13) (h4 : ¬x < 0.19) (h5 : ¬x < 0.26) (h6 : ¬x < 0.34) (h7 : ¬x < 0.42) (h8 : ¬x < 0.52) (h9 : ¬x < 0.62) (h10 : ¬x < 0.7) (h11 : ¬x < 0.77) (h12 : ¬x < 0.84) (h13 : ¬x < 0.9) (h14 : ¬x < 0.96) : bucket x = 15 := by
  unfold bucket
  rw [if_neg h0, if_neg h1, if_neg h2, if_neg h3, if_neg h4, if_neg h5, if_neg h6, if_neg h7, if_neg h8, if_neg h9, if_neg h10, if_neg h11, if_neg h12, if_neg h13, if_neg h14]

theorem bucket_cases (x : ℚ) :
    (bucket x = 0 ∧ x = 0 ∧ True) ∨
    (bucket x = 1 ∧ ¬x = 0 ∧ x < 0.04) ∨
    (bucket x = 2 ∧ ¬x < 0.04 ∧ x < 0.08) ∨
    (bucket x = 3 ∧ ¬x < 0.08 ∧ x < 0.13) ∨
    (bucket x = 4 ∧ ¬x < 0.13 ∧ x < 0.19) ∨
    (bucket x = 5 ∧ ¬x < 0.19 ∧ x < 0.26) ∨
    (bucket x = 6 ∧ ¬x < 0.26 ∧ x < 0.34) ∨
    (bucket x = 7 ∧ ¬x < 0.34 ∧ x < 0.42) ∨
    (bucket x = 8 ∧ ¬x < 0.42 ∧ x < 0.52) ∨
    (bucket x = 9 ∧ ¬x < 0.52 ∧ x < 0.62) ∨
    (bucket x = 10 ∧ ¬x < 0.62 ∧ x < 0.7) ∨
    (bucket x = 11 ∧ ¬x < 0.7 ∧ x < 0.77) ∨
    (bucket x = 12 ∧ ¬x < 0.77 ∧ x < 0.84) ∨
    (bucket x = 13 ∧ ¬x < 0.84 ∧ x < 0.9) ∨
    (bucket x = 14 ∧ ¬x < 0.9 ∧ x < 0.96) ∨
    (bucket x = 15 ∧ ¬x < 0.96 ∧ True) := by
  by_cases h0 : x = 0
  · exact Or.inl ⟨bucket_at_0 h0, h0, trivial⟩
  by_cases h1 : x < 0.04
  · exact Or.inr (Or.inl ⟨bucket_at_1 h0 h1, h0, h1⟩)
  by_cases h2 : x < 0.08
  · exact Or.inr (Or.inr (Or.inl ⟨bucket_at_2 h0 h1 h2, h1, h2⟩))
  by_cases h3 : x < 0.13
  · exact Or.inr (Or.inr (Or.inr (Or.inl ⟨bucket_at_3 h0 h1 h2 h3, h2, h3⟩)))
  by_cases h4 : x < 0.19
  · exact Or.inr (Or.inr (Or.inr (Or.inr (Or.inl ⟨bucket_at_4 h0 h1 h2 h3 h4, h3, h4⟩))))
  by_cases h5 : x < 0.26
  · exact Or.inr (Or.inr (Or.inr (Or.inr (Or.inr (Or.inl ⟨bucket_at_5 h0 h1 h2 h3 h4 h5, h4, h5⟩)))))
  by_cases h6 : x < 0.34
  · exact Or.inr (Or.inr (Or.inr (Or.inr (Or.inr (Or.inr (Or.inl ⟨bucket_at_6 h0 h1 h2 h3 h4 h5 h6, h5, h6⟩))))))
  by_cases h7 : x < 0.42
  · exact Or.inr (Or.inr (Or.inr (Or.inr (Or.inr (Or.inr (Or.inr (Or.inl ⟨bucket_at_7 h0 h1 h2 h3 h4 h5 h6 h7, h6, h7⟩)))))))
  by_cases h8 : x < 0.52
  · exact Or.inr (Or.inr (Or.inr (Or.inr (Or.inr (Or.inr (Or.inr (Or.inr (Or.inl ⟨bucket_at_8 h0 h1 h2 h3 h4 h5 h6 h7 h8, h7, h8⟩))))))))
  by_cases h9 : x < 0.62
  · exact Or.inr (Or.inr (Or.inr (Or.inr (Or.inr (Or.inr (Or.inr (Or.inr (Or.inr (Or.inl ⟨bucket_at_9 h0 h1 h2 h3 h4 h5 h6 h7 h8 h9, h8, h9⟩)))))))))
  by_cases h10 : x < 0.7
  · exact Or.inr (Or.inr (Or.inr (Or.inr (Or.inr (Or.inr (Or.inr (Or.inr (Or.inr (Or.inr (Or.inl ⟨bucket_at_10 h0 h1 h2 h3 h4 h5 h6 h7 h8 h9 h10, h9, h10⟩))))))))))
  by_cases h11 : x < 0.77
  · exact Or.inr (Or.inr (Or.inr (Or.inr (Or.inr (Or.inr (Or.inr (Or.inr (Or.inr (Or.inr (Or.inr (Or.inl ⟨bucket_at_11 h0 h1 h2 h3 h4 h5 h6 h7 h8 h9 h10 h11, h10, h11⟩)))))))))))
  by_cases h12 : x < 0.84
  · exact Or.inr (Or.inr (Or.inr (Or.inr (Or.inr (Or.inr (Or.inr (Or.inr (Or.inr (Or.inr (Or.inr (Or.inr (Or.inl ⟨bucket_at_12 h0 h1 h2 h3 h4 h5 h6 h7 h8 h9 h10 h11 h12, h11, h12⟩))))))))))))
  by_cases h13 : x < 0.9
  · exact Or.inr (Or.inr (Or.inr (Or.inr (Or.inr (Or.inr (Or.inr (Or.inr (Or.inr (Or.inr (Or.inr (Or.inr (Or.inr (Or.inl ⟨bucket_at_13 h0 h1 h2 h3 h4 h5 h6 h7 h8 h9 h10 h11 h12 h13, h12, h13⟩)))))))))))))
  by_cases h14 : x < 0.96
  · exact Or.inr (Or.inr (Or.inr (Or.inr (Or.inr (Or.inr (Or.inr (Or.inr (Or.inr (Or.inr (Or.inr (Or.inr (Or.inr (Or.inr (Or.inl ⟨bucket_at_14 h0 h1 h2 h3 h4 h5 h6 h7 h8 h9 h10 h11 h12 h13 h14, h13, h14⟩))))))))))))))
  exact Or.inr (Or.inr (Or.inr (Or.inr (Or.inr (Or.inr (Or.inr (Or.inr (Or.inr (Or.inr (Or.inr (Or.inr (Or.inr (Or.inr (Or.inr (⟨bucket_at_15 h0 h1 h2 h3 h4 h5 h6 h7 h8 h9 h10 h11 h12 h13 h14, h14, trivial⟩)))))))))))))))

theorem bucket_eq_zero_iff (x : ℚ) : bucket x = 0 ↔ x = 0 := by
  constructor
  · intro h
    rcases bucket_cases x with ⟨hbx, hx1, hx2⟩ | ⟨hbx, hx1, hx2⟩ | ⟨hbx, hx1, hx2⟩ | ⟨hbx, hx1, hx2⟩ | ⟨hbx, hx1, hx2⟩ | ⟨hbx, hx1, hx2⟩ | ⟨hbx, hx1, hx2⟩ | ⟨hbx, hx1, hx2⟩ | ⟨hbx, hx1, hx2⟩ | ⟨hbx, hx1, hx2⟩ | ⟨hbx, hx1, hx2⟩ | ⟨hbx, hx1, hx2⟩ | ⟨hbx, hx1, hx2⟩ | ⟨hbx, hx1, hx2⟩ | ⟨hbx, hx1, hx2⟩ | ⟨hbx, hx1, hx2⟩
    · exact hx1
    all_goals rw [hbx] at h; norm_num at h
  · intro h
    exact bucket_at_0 h

set_option maxHeartbeats 2000000 in
theorem bucket_mono {x y : ℚ} (hx0 : 0 ≤ x) (hxy : x ≤ y) (hyu : y ≤ 1) :
    bucket x ≤ bucket y := by
  rcases eq_or_lt_of_le hx0 with h0 | h0
  · have hz : bucket x = 0 := bucket_at_0 h0.symm
    rw [hz]
    exact Nat.zero_le _
  · rcases bucket_cases x with ⟨hbx, hx1, hx2⟩ | ⟨hbx, hx1, hx2⟩ | ⟨hbx, hx1, hx2⟩ | ⟨hbx, hx1, hx2⟩ | ⟨hbx, hx1, hx2⟩ | ⟨hbx, hx1, hx2⟩ | ⟨hbx, hx1, hx2⟩ | ⟨hbx, hx1, hx2⟩ | ⟨hbx, hx1, hx2⟩ | ⟨hbx, hx1, hx2⟩ | ⟨hbx, hx1, hx2⟩ | ⟨hbx, hx1, hx2⟩ | ⟨hbx, hx1, hx2⟩ | ⟨hbx, hx1, hx2⟩ | ⟨hbx, hx1, hx2⟩ | ⟨hbx, hx1, hx2⟩ <;>
      rcases bucket_cases y with ⟨hby, hu1, hu2⟩ | ⟨hby, hu1, hu2⟩ | ⟨hby, hu1, hu2⟩ | ⟨hby, hu1, hu2⟩ | ⟨hby, hu1, hu2⟩ | ⟨hby, hu1, hu2⟩ | ⟨hby, hu1, hu2⟩ | ⟨hby, hu1, hu2⟩ | ⟨hby, hu1, hu2⟩ | ⟨hby, hu1, hu2⟩ | ⟨hby, hu1, hu2⟩ | ⟨hby, hu1, hu2⟩ | ⟨hby, hu1, hu2⟩ | ⟨hby, hu1, hu2⟩ | ⟨hby, hu1, hu2⟩ | ⟨hby, hu1, hu2⟩ <;>
      rw [hbx, hby] <;>
      first
      | omega
      | (exfalso; linarith)

set_option maxHeartbeats 1000000 in
theorem inBand_bucket (x : ℚ) (hx0 : 0 ≤ x) (hxu : x ≤ 1) :
    inBand (bucket x) x := by
  rcases bucket_cases x with ⟨hbx, hx1, hx2⟩ | ⟨hbx, hx1, hx2⟩ | ⟨hbx, hx1, hx2⟩ | ⟨hbx, hx1, hx2⟩ | ⟨hbx, hx1, hx2⟩ | ⟨hbx, hx1, hx2⟩ | ⟨hbx, hx1, hx2⟩ | ⟨hbx, hx1, hx2⟩ | ⟨hbx, hx1, hx2⟩ | ⟨hbx, hx1, hx2⟩ | ⟨hbx, hx1, hx2⟩ | ⟨hbx, hx1, hx2⟩ | ⟨hbx, hx1, hx2⟩ | ⟨hbx, hx1, hx2⟩ | ⟨hbx, hx1, hx2⟩ | ⟨hbx, hx1, hx2⟩ <;>
    rw [hbx] <;>
    simp only [inBand] <;>
    norm_num <;>
    first
    | exact hx1
    | exact ⟨lt_of_le_of_ne hx0 (Ne.symm hx1), by linarith⟩
    | (constructor <;> linarith)

set_option maxHeartbeats 1000000 in
theorem bucket_eq_of_inBand {i : Nat} {x : ℚ} (h : inBand i x) :
    bucket x = i := by
  rcases Nat.lt_or_ge i 16 with hi | hi
  · interval_cases i
    · simp only [inBand] at h
      norm_num at h
      exact bucket_at_0 h
    · simp only [inBand] at h
      norm_num at h
      obtain ⟨ha, hb⟩ := h
      exact bucket_at_1 (fun he => by rw [he] at ha; linarith) (by linarith)
    · simp only [inBand] at h
      norm_num at h
      obtain ⟨ha, hb⟩ := h
      exact bucket_at_2 (fun he => by rw [he] at ha; linarith) (fun hc => by linarith) (by linarith)
    · simp only [inBand] at h
      norm_num at h
      obtain ⟨ha, hb⟩ := h
      exact bucket_at_3 (fun he => by rw [he] at ha; linarith) (fun hc => by linarith) (fun hc => by linarith) (by linarith)
    · simp only [inBand] at h
      norm_num at h
      obtain ⟨ha, hb⟩ := h
      exact bucket_at_4 (fun he => by rw [he] at ha; linarith) (fun hc => by linarith) (fun hc => by linarith) (fun hc => by linarith) (by linarith)
    · simp only [inBand] at h
      norm_num at h
      obtain ⟨ha, hb⟩ := h
      exact bucket_at_5 (fun he => by rw [he] at ha; linarith) (fun hc => by linarith) (fun hc => by linarith) (fun hc => by linarith) (fun hc => by linarith) (by linarith)
    · simp only [inBand] at h
      norm_num at h
      obtain ⟨ha, hb⟩ := h
      exact bucket_at_6 (fun he => by rw [he] at ha; linarith) (fun hc => by linarith) (fun hc => by linarith) (fun hc => by linarith) (fun hc => by linarith) (fun hc => by linarith) (by linarith)
    · simp only [inBand] at h
      norm_num at h
      obtain ⟨ha, hb⟩ := h
      exact bucket_at_7 (fun he => by rw [he] at ha; linarith) (fun hc => by linarith) (fun hc => by linarith) (fun hc => by linarith) (fun hc => by linarith) (fun hc => by linarith) (fun hc => by linarith) (by linarith)
    · simp only [inBand] at h
      norm_num at h
      obtain ⟨ha, hb⟩ := h
      exact bucket_at_8 (fun he => by rw [he] at ha; linarith) (fun hc => by linarith) (fun hc => by linarith) (fun hc => by linarith) (fun hc => by linarith) (fun hc => by linarith) (fun hc => by linarith) (fun hc => by linarith) (by linarith)
    · simp only [inBand] at h
      norm_num at h
      obtain ⟨ha, hb⟩ := h
      exact bucket_at_9 (fun he => by rw [he] at ha; linarith) (fun hc => by linarith) (fun hc => by linarith) (fun hc => by linarith) (fun hc => by linarith) (fun hc => by linarith) (fun hc => by linarith) (fun hc => by linarith) (fun hc => by linarith) (by linarith)
    · simp only [inBand] at h
      norm_num at h
      obtain ⟨ha, hb⟩ := h
      exact bucket_at_10 (fun he => by rw [he] at ha; linarith) (fun hc => by linarith) (fun hc => by linarith) (fun hc => by linarith) (fun hc => by linarith) (fun hc => by linarith) (fun hc => by linarith) (fun hc => by linarith) (fun hc => by linarith) (fun hc => by linarith) (by linarith)
    · simp only [inBand] at h
      norm_num at h
      obtain ⟨ha, hb⟩ := h
      exact bucket_at_11 (fun he => by rw [he] at ha; linarith) (fun hc => by linarith) (fun hc => by linarith) (fun hc => by linarith) (fun hc => by linarith) (fun hc => by linarith) (fun hc => by linarith) (fun hc => by linarith) (fun hc => by linarith) (fun hc => by linarith) (fun hc => by linarith) (by linarith)
    · simp only [inBand] at h
      norm_num at h
      obtain ⟨ha, hb⟩ := h
      exact bucket_at_12 (fun he => by rw [he] at ha; linarith) (fun hc => by linarith) (fun hc => by linarith) (fun hc => by linarith) (fun hc => by linarith) (fun hc => by linarith) (fun hc => by linarith) (fun hc => by linarith) (fun hc => by linarith) (fun hc => by linarith) (fun hc => by linarith) (fun hc => by linarith) (by linarith)
    · simp only [inBand] at h
      norm_num at h
      obtain ⟨ha, hb⟩ := h
      exact bucket_at_13 (fun he => by rw [he] at ha; linarith) (fun hc => by linarith) (fun hc => by linarith) (fun hc => by linarith) (fun hc => by linarith) (fun hc => by linarith) (fun hc => by linarith) (fun hc => by linarith) (fun hc => by linarith) (fun hc => by linarith) (fun hc => by linarith) (fun hc => by linarith) (fun hc => by linarith) (by linarith)
    · simp only [inBand] at h
      norm_num at h
      obtain ⟨ha, hb⟩ := h
      exact bucket_at_14 (fun he => by rw [he] at ha; linarith) (fun hc => by linarith) (fun hc => by linarith) (fun hc => by linarith) (fun hc => by linarith) (fun hc => by linarith) (fun hc => by linarith) (fun hc => by linarith) (fun hc => by linarith) (fun hc => by linarith) (fun hc => by linarith) (fun hc => by linarith) (fun hc => by linarith) (fun hc => by linarith) (by linarith)
    · simp only [inBand] at h
      norm_num at h
      obtain ⟨ha, hb⟩ := h
      exact bucket_at_15 (fun he => by rw [he] at ha; linarith) (fun hc => by linarith) (fun hc => by linarith) (fun hc => by linarith) (fun hc => by linarith) (fun hc => by linarith) (fun hc => by linarith) (fun hc => by linarith) (fun hc => by linarith) (fun hc => by linarith) (fun hc => by linarith) (fun hc => by linarith) (fun hc => by linarith) (fun hc => by linarith) (fun hc => by linarith)
  · exfalso
    simp only [inBand] at h
    rw [if_neg (show ¬i = 0 by omega), if_neg (show ¬i = 1 by omega), if_neg (show ¬i = 2 by omega), if_neg (show ¬i = 3 by omega), if_neg (show ¬i = 4 by omega), if_neg (show ¬i = 5 by omega), if_neg (show ¬i = 6 by omega), if_neg (show ¬i = 7 by omega), if_neg (show ¬i = 8 by omega), if_neg (show ¬i = 9 by omega), if_neg (show ¬i = 10 by omega), if_neg (show ¬i = 11 by omega), if_neg (show ¬i = 12 by omega), if_neg (show ¬i = 13 by omega), if_neg (show ¬i = 14 by omega), if_neg (show ¬i = 15 by omega)] at h
    exact h

theorem getHeatColor_eq_ramp (x : ℚ) :
    getHeatColor x = heatColors.getD (bucket x) "" := by
  by_cases h0 : x = 0
  · simp only [getHeatColor, bucket, if_pos h0]
    rfl
  by_cases h1 : x < 0.04
  · simp only [getHeatColor, bucket, if_neg h0, if_pos h1]
    rfl
  by_cases h2 : x < 0.08
  · simp only [getHeatColor, bucket, if_neg h0, if_neg h1, if_pos h2]
    rfl
  by_cases h3 : x < 0.13
  · simp only [getHeatColor, bucket, if_neg h0, if_neg h1, if_neg h2, if_pos h3]
    rfl
  by_cases h4 : x < 0.19
  · simp only [getHeatColor, bucket, if_neg h0, if_neg h1, if_neg h2, if_neg h3, if_pos h4]
    rfl
  by_cases h5 : x < 0.26
  · simp only [getHeatColor, bucket, if_neg h0, if_neg h1, if_neg h2, if_neg h3, if_neg h4, if_pos h5]
    rfl
  by_cases h6 : x < 0.34
  · simp only [getHeatColor, bucket, if_neg h0, if_neg h1, if_neg h2, if_neg h3, if_neg h4, if_neg h5, if_pos h6]
    rfl
  by_cases h7 : x < 0.42
  · simp only [getHeatColor, bucket, if_neg h0, if_neg h1, if_neg h2, if_neg h3, if_neg h4, if_neg h5, if_neg h6, if_pos h7]
    rfl
  by_cases h8 : x < 0.52
  · simp only [getHeatColor, bucket, if_neg h0, if_neg h1, if_neg h2, if_neg h3, if_neg h4, if_neg h5, if_neg h6, if_neg h7, if_pos h8]
    rfl
  by_cases h9 : x < 0.62
  · simp only [getHeatColor, bucket, if_neg h0, if_neg h1, if_neg h2, if_neg h3, if_neg h4, if_neg h5, if_neg h6, if_neg h7, if_neg h8, if_pos h9]
    rfl
  by_cases h10 : x < 0.7
  · simp only [getHeatColor, bucket, if_neg h0, if_neg h1, if_neg h2, if_neg h3, if_neg h4, if_neg h5, if_neg h6, if_neg h7, if_neg h8, if_neg h9, if_pos h10]
    rfl
  by_cases h11 : x < 0.77
  · simp only [getHeatColor, bucket, if_neg h0, if_neg h1, if_neg h2, if_neg h3, if_neg h4, if_neg h5, if_neg h6, if_neg h7, if_neg h8, if_neg h9, if_neg h10, if_pos h11]
    rfl
  by_cases h12 : x < 0.84
  · simp only [getHeatColor, bucket, if_neg h0, if_neg h1, if_neg h2, if_neg h3, if_neg h4, if_neg h5, if_neg h6, if_neg h7, if_neg h8, if_neg h9, if_neg h10, if_neg h11, if_pos h12]
    rfl
  by_cases h13 : x < 0.9
  · simp only [getHeatColor, bucket, if_neg h0, if_neg h1, if_neg h2, if_neg h3, if_neg h4, if_neg h5, if_neg h6, if_neg h7, if_neg h8, if_neg h9, if_neg h10, if_neg h11, if_neg h12, if_pos h13]
    rfl
  by_cases h14 : x < 0.96
  · simp only [getHeatColor, bucket, if_neg h0, if_neg h1, if_neg h2, if_neg h3, if_neg h4, if_neg h5, if_neg h6, if_neg h7, if_neg h8, if_neg h9, if_neg h10, if_neg h11, if_neg h12, if_neg h13, if_pos h14]
    rfl
  simp only [getHeatColor, bucket, if_neg h0, if_neg h1, if_neg h2, if_neg h3, if_neg h4, if_neg h5, if_neg h6, if_neg h7, if_neg h8, if_neg h9, if_neg h10, if_neg h11, if_neg h12, if_neg h13, if_neg h14]
  rfl


theorem bucket_one : bucket 1 = 15 := by norm_num [bucket]

/-- Claim C1: the intensity-to-bucket mapping is a pure total function on
the interval from 0 to 1: the fourteen interior thresholds are strictly
ascending, every intensity in the interval lies in exactly one of the
sixteen severity bands, the band holding an intensity is the one whose
index the bucket function returns, the bucket index is monotonically
non-decreasing in the intensity, bucket 0 is assigned exactly when the
intensity is 0, and the bucket classification agrees with the getHeatColor
if-chain through the ordered color ramp. -/
theorem C1_bucket_partition :
    List.Chain' (fun a b : ℚ => a < b) thresholds ∧
    (∀ x : ℚ, 0 ≤ x → x ≤ 1 → ∃! i : Nat, inBand i x) ∧
    (∀ x : ℚ, 0 ≤ x → x ≤ 1 → inBand (bucket x) x) ∧
    (∀ x y : ℚ, 0 ≤ x → x ≤ y → y ≤ 1 → bucket x ≤ bucket y) ∧
    (∀ x : ℚ, bucket x = 0 ↔ x = 0) ∧
    (∀ x : ℚ, getHeatColor x = heatColors.getD (bucket x) "") := by
  refine ⟨?_, ?_, ?_, ?_, ?_, ?_⟩
  · norm_num [thresholds, List.chain'_cons]
  · intro x hx0 hx1
    exact ⟨bucket x, inBand_bucket x hx0 hx1,
      fun j hj => (bucket_eq_of_inBand hj).symm⟩
  · exact inBand_bucket
  · intro x y hx0 hxy hy1
    exact bucket_mono hx0 hxy hy1
  · exact bucket_eq_zero_iff
  · exact getHeatColor_eq_ramp

theorem C1_bucket_partition_witness :
    inBand (bucket (1/2 : ℚ)) (1/2 : ℚ) ∧
    bucket (3/10 : ℚ) ≤ bucket (1/2 : ℚ) :=
  ⟨C1_bucket_partition.2.2.1 (1/2) (by norm_num) (by norm_num),
   C1_bucket_partition.2.2.2.1 (3/10) (1/2) (by norm_num) (by norm_num)
     (by norm_num)⟩

/-- Claim C2: the resolver tries exactly the candidates exact label,
upper-cased, lower-cased, title-cased, and for one-character labels the
Key-prefixed upper-cased character, in that order with first match
winning and 0 when none is present; in particular label a with only the
entry KeyA at 42 resolves to 42. -/
theorem C2_resolve_order :
    (∀ (freq : FreqMap) (label : String),
      getKeyCount freq label = specResolve freq label) ∧
    getKeyCount [("KeyA", 42)] "a" = 42 := by
  constructor
  · intro freq label
    by_cases hl : label.length = 1 <;>
      cases h1 : lookup freq label <;>
      cases h2 : lookup freq (jsToUpper label) <;>
      cases h3 : lookup freq (jsToLower label) <;>
      cases h4 : lookup freq (jsCapitalize label) <;>
      cases h5 : lookup freq ("Key" ++ jsToUpper label) <;>
      simp [getKeyCount, specResolve, specCandidates, hl, h1, h2, h3, h4,
        h5, List.findSome?]
  · decide

/-- Claim C3: intensity is the resolved count divided by the maximum
mapping value floored at 1; it is always defined, lies between 0 and 1,
and an empty or all-zero mapping gives every key intensity 0 and
bucket 0. -/
theorem C3_intensity_normalization :
    ∀ (freq : FreqMap) (label : String),
    getIntensity freq label = (getKeyCount freq label : ℚ) / (maxCount freq : ℚ) ∧
    maxCount freq = max 1 (maxVal freq) ∧
    0 ≤ getIntensity freq label ∧
    getIntensity freq label ≤ 1 ∧
    ((∀ p ∈ freq, p.2 = 0) → getIntensity freq label = 0 ∧
      bucket (getIntensity freq label) = 0) := by
  intro freq label
  have hmc1 : 1 ≤ maxCount freq := by
    rw [maxCount_eq_max]
    exact le_max_left _ _
  have hpos : (0 : ℚ) < (maxCount freq : ℚ) := by
    exact_mod_cast Nat.lt_of_lt_of_le Nat.zero_lt_one hmc1
  refine ⟨rfl, maxCount_eq_max freq, ?_, ?_, ?_⟩
  · exact div_nonneg (Nat.cast_nonneg _) (Nat.cast_nonneg _)
  · rw [getIntensity, div_le_one hpos]
    have hle : getKeyCount freq label ≤ maxCount freq := by
      refine le_trans (getKeyCount_le_maxVal freq label) ?_
      rw [maxCount_eq_max]
      exact le_max_right _ _
    exact_mod_cast hle
  · intro hz
    have h0 : getKeyCount freq label = 0 := by
      have hb := getKeyCount_le_maxVal freq label
      rw [maxVal_eq_zero hz] at hb
      omega
    have hi : getIntensity freq label = 0 := by
      rw [getIntensity, h0]
      simp
    exact ⟨hi, by rw [hi]; exact bucket_at_0 rfl⟩

theorem C3_intensity_normalization_witness :
    getIntensity [] "Escape" = 0 ∧ bucket (getIntensity [] "Escape") = 0 :=
  (C3_intensity_normalization [] "Escape").2.2.2.2 (by simp)

/-- Claim C4: a key whose resolved count equals the global maximum of the
mapping has, whenever that count is positive, intensity exactly 1 and
bucket 15. -/
theorem C4_max_key_top_bucket :
    ∀ (freq : FreqMap) (label : String),
    getKeyCount freq label = maxVal freq → 0 < getKeyCount freq label →
    getIntensity freq label = 1 ∧ bucket (getIntensity freq label) = 15 := by
  intro freq label hmax hpos
  have h1 : 1 ≤ maxVal freq := by omega
  have hmc : maxCount freq = maxVal freq := by
    rw [maxCount_eq_max]
    exact Nat.max_eq_right h1
  have hne : ((maxVal freq : ℚ)) ≠ 0 := Nat.cast_ne_zero.mpr (by omega)
  have hi : getIntensity freq label = 1 := by
    rw [getIntensity, hmax, hmc, div_self hne]
  exact ⟨hi, by rw [hi]; exact bucket_one⟩

theorem C4_max_key_top_bucket_witness :
    getKeyCount [("SPACE", 200)] "Space" = 200 ∧
    (getIntensity [("SPACE", 200)] "Space" = 1 ∧
      bucket (getIntensity [("SPACE", 200)] "Space") = 15) :=
  ⟨by decide, C4_max_key_top_bucket [("SPACE", 200)] "Space" (by decide)
    (by decide)⟩

/-- Claim C5 counterexample: the band widths of buckets 1 to 15 are not
non-increasing: the band of bucket 2 has width 0.04 while the band of
bucket 3 has width 0.05, so the width strictly increases from bucket 2 to
bucket 3. -/
theorem C5_counterexample :
    bandWidths = [0.04, 0.04, 0.05, 0.06, 0.07, 0.08, 0.08, 0.1, 0.1,
      0.08, 0.07, 0.07, 0.06, 0.06, 0.04] ∧
    ¬ List.Chain' (fun a b : ℚ => b ≤ a) bandWidths := by
  refine ⟨?_, ?_⟩ <;> norm_num [bandWidths, thresholds, List.chain'_cons]

/-- Claim C5, amended: the fifteen band widths are not non-increasing
from bucket 1 on, but they are non-increasing from bucket 8 through
bucket 15, the top band from 0.96 to 1 has width 0.04, and no band is
narrower than 0.04, so the thresholds do cluster more tightly near 1.0
than in the middle of the scale. -/
theorem C5_amended_narrow_top :
    List.Chain' (fun a b : ℚ => b ≤ a) (bandWidths.drop 7) ∧
    bandWidths.drop 14 = [0.04] ∧
    bandWidths.foldr min 1 = 0.04 ∧
    bandWidths.length = 15 := by
  refine ⟨?_, ?_, ?_, ?_⟩ <;> norm_num [bandWidths, thresholds, List.chain'_cons]

/-- Claim C6: an exact-case entry for a label always wins: whenever the
mapping has an entry whose key is exactly the label, the resolver returns
that value regardless of other variants present. -/
theorem C6_exact_match_wins :
    ∀ (freq : FreqMap) (label : String) (v : Nat),
    lookup freq label = some v → getKeyCount freq label = v :=
  fun _ _ _ h => getKeyCount_exact h

theorem C6_exact_match_wins_witness :
    lookup [("ShiftLeft", 10), ("shiftleft", 5)] "ShiftLeft" = some 10 ∧
    getKeyCount [("ShiftLeft", 10), ("shiftleft", 5)] "ShiftLeft" = 10 :=
  ⟨by decide, C6_exact_match_wins [("ShiftLeft", 10), ("shiftleft", 5)]
    "ShiftLeft" 10 (by decide)⟩

/-- Claim C7: the resolver is total and deterministic and returns a single
integer at least 0 for every label and mapping. -/
theorem C7_resolver_total_deterministic :
    ∀ (freq : FreqMap) (label : String),
    getKeyCount freq label = getKeyCount freq label ∧
    (0 : ℤ) ≤ (getKeyCount freq label : ℤ) :=
  fun _ _ => ⟨rfl, by exact_mod_cast Nat.zero_le _⟩

/-- Claim C8: for one-character labels the only prefix-convention
candidate is Key followed by the upper-cased character, so a label whose
capture-side spelling follows another convention resolves to 0; in
particular label 1 with only the entry Digit1 resolves to 0. -/
theorem C8_single_char_key_prefix_only :
    getKeyCount [("Digit1", 5)] "1" = 0 ∧
    (∀ (freq : FreqMap) (label : String), label.length = 1 →
      (∀ c ∈ specCandidates label, lookup freq c = none) →
      getKeyCount freq label = 0) := by
  constructor
  · decide
  · intro freq label hl hall
    have h1 := hall label (by simp [specCandidates])
    have h2 := hall (jsToUpper label) (by simp [specCandidates])
    have h3 := hall (jsToLower label) (by simp [specCandidates])
    have h4 := hall (jsCapitalize label) (by simp [specCandidates])
    have h5 := hall ("Key" ++ jsToUpper label) (by simp [specCandidates, hl])
    simp only [getKeyCount, h1, h2, h3, h4, h5, if_pos hl]

theorem C8_single_char_key_prefix_only_witness :
    ("1" : String).length = 1 ∧
    (∀ c ∈ specCandidates "1", lookup [("Digit1", 5)] c = none) ∧
    getKeyCount [("Digit1", 5)] "1" = 0 :=
  ⟨by decide, by decide,
   C8_single_char_key_prefix_only.2 [("Digit1", 5)] "1" (by decide)
     (by decide)⟩

/-- Claim C9: the resolver checks presence, not non-zero value, so an
exact entry with value 0 shadows every later candidate; in particular
label a with entries a at 0 and KeyA at 100 resolves to 0. -/
theorem C9_zero_value_shadows :
    getKeyCount [("a", 0), ("KeyA", 100)] "a" = 0 ∧
    (∀ (freq : FreqMap) (label : String), lookup freq label = some 0 →
      getKeyCount freq label = 0) :=
  ⟨by decide, fun _ _ h => getKeyCount_exact h⟩

theorem C9_zero_value_shadows_witness :
    lookup [("a", 0), ("KeyA", 100)] "a" = some 0 ∧
    getKeyCount [("a", 0), ("KeyA", 100)] "a" = 0 :=
  ⟨by decide, C9_zero_value_shadows.2 [("a", 0), ("KeyA", 100)] "a"
    (by decide)⟩

/-- Claim C10: for every physical key label in the layout the rendered
display label is the glyph recorded in the display-name table when one is
present and the upper-cased label otherwise. -/
theorem C10_display_label :
    ∀ key ∈ KEYBOARD_LAYOUT.flatten, displayName key = specDisplayName key := by
  decide

theorem C10_display_label_witness :
    "Return" ∈ KEYBOARD_LAYOUT.flatten ∧
    displayName "Return" = specDisplayName "Return" :=
  ⟨by decide, C10_display_label "Return" (by decide)⟩
end Kitmap
